import Mathlib

/-!
Shallow embedding of `src/notebooks/06_load_excel_files/procedure.py`:
the stored procedure `main` (mapping query + loop) and the per-file
operation `load_excel_worksheet_to_table_local` (stage GET, open,
workbook/worksheet parse, DataFrame build, overwrite write, finally
cleanup).  External services (the stage, the local filesystem, the
destination tables, the mapping query result) are modelled as explicit
state; exceptions are modelled with `Except`.
-/

set_option autoImplicit false
set_option maxRecDepth 8000

deriving instance DecidableEq for Except

/-- A cell value of a worksheet row (modelled as a string). -/
abbrev Cell := String

/-- One worksheet row, as yielded by `sheet.values`: a tuple of cells. -/
abbrev Row := List Cell

/-- An Excel workbook: named sheets, each a sequence of rows in sheet order.
`workbook[name]` is lookup by exact (case-sensitive) sheet name. -/
structure Workbook where
  sheets : List (String × List Row)
deriving DecidableEq

/-- The pandas DataFrame built in the procedure: `columns` from the header
row (the first row, consumed by `next(data)`), `rows` the remaining rows. -/
structure PandasDF where
  columns : Row
  rows : List Row
deriving DecidableEq

/-- One row of the mapping query result:
(STAGE_FILE_PATH, WORKSHEET_NAME, TARGET_TABLE). -/
structure MappingRecord where
  stage_file_path : String
  worksheet_name : String
  target_table : String
deriving DecidableEq

/-- The Python exceptions that can propagate out of the procedure. -/
inductive PyErr where
  /-- `session.file.get` fails (remote file absent / copy fails). -/
  | stagingError (path : String)
  /-- Opening the local staged file for binary read fails. -/
  | fileNotFound (path : String)
  /-- `workbook[worksheet_name]` raises KeyError: no such sheet. -/
  | keyError (name : String)
  /-- `next(data)` raises StopIteration: the row sequence is empty. -/
  | stopIteration
  /-- `save_as_table` is rejected by the store. -/
  | writeError (table : String)
  /-- `os.remove` fails (e.g. permission error). -/
  | osError (path : String)
  /-- `session.sql(...).collect()` fails. -/
  | queryError (msg : String)
deriving DecidableEq

/-- Messages emitted through the module logger, abstracted to their kind
and interpolated data. -/
inductive LogEntry where
  /-- logger.info "Attempting to GET file: \x7bstage_file_path\x7d". -/
  | infoAttemptGet (path : String)
  /-- logger.info "Successfully loaded data into table: \x7btarget_table\x7d". -/
  | infoLoaded (table : String)
  /-- logger.error "Error processing file \x7bfile_name\x7d: \x7be\x7d". -/
  | errorProcessing (file_name : String)
  /-- logger.info "Found \x7bn\x7d files to process.". -/
  | infoFound (n : Nat)
  /-- logger.info "06_load_excel_files end". -/
  | infoEnd
deriving DecidableEq

/-- The world the stored procedure acts on: the stage contents, the local
`/tmp` filesystem, the destination tables, the session's mapping-query
outcome, the injected failure sets for `os.remove` and `save_as_table`
(paths/tables on which those calls raise), and the emitted log. -/
structure SPState where
  stage : List (String × Workbook)
  localFS : List (String × Workbook)
  tables : List (String × PandasDF)
  mappingResult : Except PyErr (List MappingRecord)
  removeFails : List String
  writeFails : List String
  log : List LogEntry
deriving DecidableEq

/-- Set key `k` to `v` in an association list: replace in place if present,
append otherwise (how both a filesystem write and an overwrite
`save_as_table` act on their keyed store). -/
def setA {α : Type} (k : String) (v : α) : List (String × α) → List (String × α)
  | [] => [(k, v)]
  | p :: ps => if p.1 = k then (k, v) :: ps else p :: setA k v ps

/-- Delete key `k` from an association list (`os.remove`). -/
def removeA {α : Type} (k : String) (l : List (String × α)) : List (String × α) :=
  l.filter (fun p => p.1 != k)

/-- Helper for `basename`: keep the characters after the last slash. -/
def basenameAux : List Char → List Char → List Char
  | [], acc => acc
  | c :: cs, acc => if c = '/' then basenameAux cs [] else basenameAux cs (acc ++ [c])

/-- `os.path.basename` on the slash-separated stage paths used here. -/
def basename (p : String) : String := String.mk (basenameAux p.toList [])

/-- `os.path.join(local_directory, file_name)` with
`local_directory = "/tmp/"`. -/
def full_local_path (stage_file_path : String) : String :=
  "/tmp/" ++ basename stage_file_path

/-- The `logger.info` call made before the GET. -/
def attemptLog (stage_file_path : String) (s : SPState) : SPState :=
  { s with log := s.log ++ [LogEntry.infoAttemptGet stage_file_path] }

/-- Effect of a successful `session.file.get(stage_file_path, "/tmp/")`:
the staged bytes appear at the derived local path. -/
def stageGet (stage_file_path : String) (wb : Workbook) (s : SPState) : SPState :=
  { s with localFS := setA (full_local_path stage_file_path) wb s.localFS }

/-- The body of the `try` block (steps 2-4): open the local file, load the
workbook, select the worksheet, consume the first produced row as the
column headers, build the DataFrame from the remaining rows, and write it
with mode "overwrite" to `target_table`. -/
def tryBody (flp worksheet_name target_table : String) (s : SPState) :
    Except PyErr Unit × SPState :=
  match List.lookup flp s.localFS with
  | none => (Except.error (PyErr.fileNotFound flp), s)
  | some workbook =>
    match List.lookup worksheet_name workbook.sheets with
    | none => (Except.error (PyErr.keyError worksheet_name), s)
    | some rows =>
      match rows with
      | [] => (Except.error PyErr.stopIteration, s)
      | columns :: body =>
        if target_table ∈ s.writeFails then
          (Except.error (PyErr.writeError target_table), s)
        else
          (Except.ok (),
           { s with
               tables := setA target_table ⟨columns, body⟩ s.tables,
               log := s.log ++ [LogEntry.infoLoaded target_table] })

/-- The `except Exception as e` clause: log the error with the file name
(the exception is then re-raised, which the caller of this step encodes). -/
def exceptStep (file_name : String) (r : Except PyErr Unit) (s : SPState) : SPState :=
  match r with
  | Except.ok _ => s
  | Except.error _ => { s with log := s.log ++ [LogEntry.errorProcessing file_name] }

/-- Convert the try-block outcome to the function result (`return True`
on success, re-raise otherwise). -/
def liftResult : Except PyErr Unit → Except PyErr Bool
  | Except.ok _ => Except.ok true
  | Except.error e => Except.error e

/-- The `finally` block: if the local file exists, `os.remove` it.  Per
Python semantics, an exception raised inside `finally` replaces any
in-flight exception from the `try` body. -/
def finallyStep (flp : String) (r : Except PyErr Unit) (s : SPState) :
    Except PyErr Bool × SPState :=
  match List.lookup flp s.localFS with
  | some _ =>
    if flp ∈ s.removeFails then (Except.error (PyErr.osError flp), s)
    else (liftResult r, { s with localFS := removeA flp s.localFS })
  | none => (liftResult r, s)

/-- `load_excel_worksheet_to_table_local(session, stage_file_path,
worksheet_name, target_table)`: GET the staged file to `/tmp` (outside the
`try` block), then run the try/except/finally over open, parse and write. -/
def load_excel_worksheet_to_table_local
    (stage_file_path worksheet_name target_table : String) (s : SPState) :
    Except PyErr Bool × SPState :=
  let file_name := basename stage_file_path
  let flp := full_local_path stage_file_path
  let s0 := attemptLog stage_file_path s
  match List.lookup stage_file_path s0.stage with
  | none => (Except.error (PyErr.stagingError stage_file_path), s0)
  | some wb =>
    let s1 := stageGet stage_file_path wb s0
    let pr := tryBody flp worksheet_name target_table s1
    finallyStep flp pr.1 (exceptStep file_name pr.1 pr.2)

/-- The `for row in mapping_df_rows` loop: invoke the per-file load for
each record in order; an exception aborts the loop and propagates. -/
def runLoop : List MappingRecord → SPState → Except PyErr Unit × SPState
  | [], s => (Except.ok (), s)
  | r :: rest, s =>
    match load_excel_worksheet_to_table_local
        r.stage_file_path r.worksheet_name r.target_table s with
    | (Except.ok _, s1) => runLoop rest s1
    | (Except.error e, s1) => (Except.error e, s1)

/-- The status string returned on full success. -/
def successMessage : String := "SUCCESS: Excel files loaded into Snowflake tables."

/-- The two hardcoded rows produced by `mapping_query`. -/
def mapping_query_rows : List MappingRecord :=
  [⟨"@INTEGRATIONS.FROSTBYTE_RAW_STAGE/intro/order_detail.xlsx", "order_detail", "ORDER_DETAIL"⟩,
   ⟨"@INTEGRATIONS.FROSTBYTE_RAW_STAGE/intro/location.xlsx", "location", "LOCATION"⟩]

namespace Proc

/-- `main(session)`: run the mapping query (its outcome is part of the
session state), log the record count, process each record in order, and
return the success string. -/
def main (s : SPState) : Except PyErr String × SPState :=
  match s.mappingResult with
  | Except.error e => (Except.error e, s)
  | Except.ok mapping_df_rows =>
    let s1 := { s with log := s.log ++ [LogEntry.infoFound mapping_df_rows.length] }
    match runLoop mapping_df_rows s1 with
    | (Except.error e, s2) => (Except.error e, s2)
    | (Except.ok _, s2) =>
      (Except.ok successMessage, { s2 with log := s2.log ++ [LogEntry.infoEnd] })

end Proc

/-- The per-record validity conditions under which a load succeeds: the
stage holds the file, the workbook has the worksheet with at least a
header row, the table write is not rejected, and the local delete is not
rejected. -/
def validB (s : SPState) (p ws t : String) : Bool :=
  match List.lookup p s.stage with
  | none => false
  | some wb =>
    match List.lookup ws wb.sheets with
    | none => false
    | some [] => false
    | some (_ :: _) =>
      !(decide (t ∈ s.writeFails)) && !(decide (full_local_path p ∈ s.removeFails))

/-- The DataFrame a mapping record parses to, given the stage contents
(defaulting to empty when the record is not loadable). -/
def dfRecord (stage : List (String × Workbook)) (r : MappingRecord) : PandasDF :=
  match List.lookup r.stage_file_path stage with
  | none => ⟨[], []⟩
  | some wb =>
    match List.lookup r.worksheet_name wb.sheets with
    | none => ⟨[], []⟩
    | some [] => ⟨[], []⟩
    | some (hdr :: body) => ⟨hdr, body⟩

/-- The log entries a successful load of one record emits, in order. -/
def recTrace (r : MappingRecord) : List LogEntry :=
  [LogEntry.infoAttemptGet r.stage_file_path, LogEntry.infoLoaded r.target_table]

/-- Apply a sequence of keyed overwrites to an association list. -/
def applySets : List (String × PandasDF) → List (String × PandasDF) → List (String × PandasDF)
  | [], tb => tb
  | kv :: ps, tb => applySets ps (setA kv.1 kv.2 tb)

/-- The overwrite each record performs on the destination-table store. -/
def recSet (stage : List (String × Workbook)) (r : MappingRecord) : String × PandasDF :=
  (r.target_table, dfRecord stage r)

/-- Is a log entry the per-table write-success message? -/
def isLoadWrite : LogEntry → Bool
  | LogEntry.infoLoaded _ => true
  | _ => false

/-- Concrete state: a staged workbook with one populated worksheet and a
destination table holding prior contents. -/
def wC1 : SPState :=
  ⟨[("@ST/intro/a.xlsx", ⟨[("ws", [["ID", "NAME"], ["1", "Alice"], ["2", "Bob"]])]⟩)],
   [], [("T", ⟨["OLD"], [["x"]]⟩)], Except.ok [], [], [], []⟩

/-- Concrete state: a leftover local file and a stage missing the file. -/
def xC2 : SPState :=
  ⟨[], [("/tmp/b.xlsx", ⟨[]⟩)], [], Except.ok [], [], [], []⟩

/-- Concrete state: a staged workbook without the requested worksheet. -/
def wC2 : SPState :=
  ⟨[("@ST/intro/b.xlsx", ⟨[("other", [["H"]])]⟩)], [], [], Except.ok [], [], [], []⟩

/-- Concrete state: a staged workbook without the requested worksheet and a
destination table with prior contents. -/
def wC4 : SPState :=
  ⟨[("@ST/intro/d.xlsx", ⟨[("other", [["H"]])]⟩)],
   [], [("TD", ⟨["OLD"], [["x"]]⟩)], Except.ok [], [], [], []⟩

/-- Concrete state: a stage missing the requested file. -/
def xC7 : SPState :=
  ⟨[], [], [], Except.ok [], [], [], []⟩

/-- Concrete state: a staged workbook without the requested worksheet. -/
def wC7 : SPState :=
  ⟨[("@ST/intro/e.xlsx", ⟨[("other", [["H"]])]⟩)], [], [], Except.ok [], [], [], []⟩

/-- Concrete state: a staged workbook without the requested worksheet, whose
local copy cannot be deleted. -/
def xC8 : SPState :=
  ⟨[("@ST/intro/f.xlsx", ⟨[("other", [["H"]])]⟩)],
   [], [], Except.ok [], ["/tmp/f.xlsx"], [], []⟩

/-- Concrete state: a fully loadable staged workbook whose local copy cannot
be deleted. -/
def wC8 : SPState :=
  ⟨[("@ST/intro/g.xlsx", ⟨[("ws", [["ID"], ["1"]])]⟩)],
   [], [], Except.ok [], ["/tmp/g.xlsx"], [], []⟩

/-- Concrete state: a staged workbook whose requested worksheet is empty. -/
def wC10 : SPState :=
  ⟨[("@ST/intro/h.xlsx", ⟨[("ws", [])]⟩)],
   [], [("TH", ⟨["OLD"], [["x"]]⟩)], Except.ok [], [], [], []⟩

/-- Concrete state: two loadable staged workbooks and a mapping of two
records. -/
def wC3 : SPState :=
  ⟨[("@ST/intro/i.xlsx", ⟨[("ws", [["A"], ["1"]])]⟩),
    ("@ST/intro/j.xlsx", ⟨[("ws", [["B"], ["2"]])]⟩)],
   [], [],
   Except.ok [⟨"@ST/intro/i.xlsx", "ws", "T1"⟩, ⟨"@ST/intro/j.xlsx", "ws", "T2"⟩],
   [], [], []⟩

/-- Concrete state: two mapped records where the first record's table write
is rejected. -/
def wC5 : SPState :=
  ⟨[("@ST/intro/i.xlsx", ⟨[("ws", [["A"], ["1"]])]⟩),
    ("@ST/intro/j.xlsx", ⟨[("ws", [["B"], ["2"]])]⟩)],
   [], [],
   Except.ok [⟨"@ST/intro/i.xlsx", "ws", "T1"⟩, ⟨"@ST/intro/j.xlsx", "ws", "T2"⟩],
   [], ["T1"], []⟩

/-- Concrete state: the mapping query itself fails. -/
def wC6 : SPState :=
  ⟨[("@ST/intro/a.xlsx", ⟨[("ws", [["A"], ["1"]])]⟩)], [], [],
   Except.error (PyErr.queryError "boom"), [], [], []⟩

/-- Concrete state: two loadable staged workbooks for a full double run. -/
def wC9 : SPState :=
  ⟨[("@ST/intro/i.xlsx", ⟨[("ws", [["A"], ["1"]])]⟩),
    ("@ST/intro/j.xlsx", ⟨[("ws", [["B"], ["2"]])]⟩)],
   [], [("T1", ⟨["OLD"], [["x"]]⟩)],
   Except.ok [⟨"@ST/intro/i.xlsx", "ws", "T1"⟩, ⟨"@ST/intro/j.xlsx", "ws", "T2"⟩],
   [], [], []⟩

theorem lookup_setA {α : Type} (k k' : String) (v : α) (l : List (String × α)) :
    List.lookup k (setA k' v l) = if k = k' then some v else List.lookup k l := by
  induction l with
  | nil =>
    by_cases h : k = k'
    · subst h; simp [setA, List.lookup]
    · simp [setA, List.lookup, h, beq_false_of_ne h]
  | cons p ps ih =>
    by_cases hp : p.1 = k'
    · rw [setA, if_pos hp]
      by_cases h : k = k'
      · subst h; simp [List.lookup]
      · have h1 : (k == k') = false := beq_false_of_ne h
        have h2 : (k == p.1) = false := beq_false_of_ne (by rw [hp]; exact h)
        simp [List.lookup, h1, h2, h]
    · rw [setA, if_neg hp]
      by_cases h2 : k = p.1
      · have hne : ¬ k = k' := by rw [h2]; exact hp
        simp [List.lookup, h2, hne, hp]
      · have hkp : (k == p.1) = false := beq_false_of_ne h2
        simp [List.lookup, hkp, ih]

theorem lookup_removeA_self {α : Type} (k : String) (l : List (String × α)) :
    List.lookup k (removeA k l) = none := by
  induction l with
  | nil => rfl
  | cons p ps ih =>
    simp only [removeA, List.filter_cons] at ih ⊢
    by_cases h : p.1 = k
    · simp [h, ih]
    · have h1 : (p.1 != k) = true := by simp [h]
      have h2 : (k == p.1) = false := beq_false_of_ne (fun hk => h hk.symm)
      simp [h1, List.lookup, h2, ih]

theorem lookup_append_assoc {α : Type} (k : String) (l1 l2 : List (String × α)) :
    List.lookup k (l1 ++ l2) =
      match List.lookup k l1 with
      | some v => some v
      | none => List.lookup k l2 := by
  induction l1 with
  | nil => simp [List.lookup]
  | cons p ps ih =>
    by_cases h : k = p.1
    · subst h; simp [List.lookup]
    · have h2 : (k == p.1) = false := beq_false_of_ne h
      simp [List.lookup, h2, ih]

theorem lookup_applySets (k : String) (ps tb : List (String × PandasDF)) :
    List.lookup k (applySets ps tb) =
      match List.lookup k ps.reverse with
      | some v => some v
      | none => List.lookup k tb := by
  induction ps generalizing tb with
  | nil => simp [applySets]
  | cons kv ps ih =>
    rw [applySets, ih, List.reverse_cons, lookup_append_assoc]
    cases hrev : List.lookup k ps.reverse with
    | some v => simp
    | none =>
      by_cases h : k = kv.1
      · simp [lookup_setA, List.lookup, h]
      · simp [lookup_setA, List.lookup, h, beq_false_of_ne h]

theorem lookup_applySets_idem (k : String) (ps tb : List (String × PandasDF)) :
    List.lookup k (applySets ps (applySets ps tb)) = List.lookup k (applySets ps tb) := by
  rw [lookup_applySets k ps (applySets ps tb)]
  cases hrev : List.lookup k ps.reverse with
  | some v => simp [lookup_applySets, hrev]
  | none => rfl

@[simp] theorem attemptLog_stage (p : String) (s : SPState) :
    (attemptLog p s).stage = s.stage := rfl

@[simp] theorem attemptLog_localFS (p : String) (s : SPState) :
    (attemptLog p s).localFS = s.localFS := rfl

@[simp] theorem attemptLog_tables (p : String) (s : SPState) :
    (attemptLog p s).tables = s.tables := rfl

@[simp] theorem attemptLog_removeFails (p : String) (s : SPState) :
    (attemptLog p s).removeFails = s.removeFails := rfl

@[simp] theorem attemptLog_writeFails (p : String) (s : SPState) :
    (attemptLog p s).writeFails = s.writeFails := rfl

@[simp] theorem attemptLog_mappingResult (p : String) (s : SPState) :
    (attemptLog p s).mappingResult = s.mappingResult := rfl

@[simp] theorem attemptLog_log (p : String) (s : SPState) :
    (attemptLog p s).log = s.log ++ [LogEntry.infoAttemptGet p] := rfl

@[simp] theorem stageGet_stage (p : String) (wb : Workbook) (s : SPState) :
    (stageGet p wb s).stage = s.stage := rfl

@[simp] theorem stageGet_localFS (p : String) (wb : Workbook) (s : SPState) :
    (stageGet p wb s).localFS = setA (full_local_path p) wb s.localFS := rfl

@[simp] theorem stageGet_tables (p : String) (wb : Workbook) (s : SPState) :
    (stageGet p wb s).tables = s.tables := rfl

@[simp] theorem stageGet_removeFails (p : String) (wb : Workbook) (s : SPState) :
    (stageGet p wb s).removeFails = s.removeFails := rfl

@[simp] theorem stageGet_writeFails (p : String) (wb : Workbook) (s : SPState) :
    (stageGet p wb s).writeFails = s.writeFails := rfl

@[simp] theorem stageGet_mappingResult (p : String) (wb : Workbook) (s : SPState) :
    (stageGet p wb s).mappingResult = s.mappingResult := rfl

@[simp] theorem stageGet_log (p : String) (wb : Workbook) (s : SPState) :
    (stageGet p wb s).log = s.log := rfl

@[simp] theorem exceptStep_localFS (fn : String) (r : Except PyErr Unit) (s : SPState) :
    (exceptStep fn r s).localFS = s.localFS := by cases r <;> rfl

@[simp] theorem exceptStep_stage (fn : String) (r : Except PyErr Unit) (s : SPState) :
    (exceptStep fn r s).stage = s.stage := by cases r <;> rfl

@[simp] theorem exceptStep_tables (fn : String) (r : Except PyErr Unit) (s : SPState) :
    (exceptStep fn r s).tables = s.tables := by cases r <;> rfl

@[simp] theorem exceptStep_removeFails (fn : String) (r : Except PyErr Unit) (s : SPState) :
    (exceptStep fn r s).removeFails = s.removeFails := by cases r <;> rfl

@[simp] theorem exceptStep_writeFails (fn : String) (r : Except PyErr Unit) (s : SPState) :
    (exceptStep fn r s).writeFails = s.writeFails := by cases r <;> rfl

@[simp] theorem exceptStep_mappingResult (fn : String) (r : Except PyErr Unit) (s : SPState) :
    (exceptStep fn r s).mappingResult = s.mappingResult := by cases r <;> rfl

@[simp] theorem tryBody_localFS (flp ws t : String) (s : SPState) :
    ((tryBody flp ws t s).2).localFS = s.localFS := by
  unfold tryBody
  repeat' split
  all_goals rfl

@[simp] theorem tryBody_stage (flp ws t : String) (s : SPState) :
    ((tryBody flp ws t s).2).stage = s.stage := by
  unfold tryBody
  repeat' split
  all_goals rfl

@[simp] theorem tryBody_removeFails (flp ws t : String) (s : SPState) :
    ((tryBody flp ws t s).2).removeFails = s.removeFails := by
  unfold tryBody
  repeat' split
  all_goals rfl

@[simp] theorem tryBody_writeFails (flp ws t : String) (s : SPState) :
    ((tryBody flp ws t s).2).writeFails = s.writeFails := by
  unfold tryBody
  repeat' split
  all_goals rfl

@[simp] theorem tryBody_mappingResult (flp ws t : String) (s : SPState) :
    ((tryBody flp ws t s).2).mappingResult = s.mappingResult := by
  unfold tryBody
  repeat' split
  all_goals rfl

@[simp] theorem finallyStep_stage (flp : String) (r : Except PyErr Unit) (s : SPState) :
    ((finallyStep flp r s).2).stage = s.stage := by
  unfold finallyStep
  repeat' split
  all_goals rfl

@[simp] theorem finallyStep_tables (flp : String) (r : Except PyErr Unit) (s : SPState) :
    ((finallyStep flp r s).2).tables = s.tables := by
  unfold finallyStep
  repeat' split
  all_goals rfl

@[simp] theorem finallyStep_removeFails (flp : String) (r : Except PyErr Unit) (s : SPState) :
    ((finallyStep flp r s).2).removeFails = s.removeFails := by
  unfold finallyStep
  repeat' split
  all_goals rfl

@[simp] theorem finallyStep_writeFails (flp : String) (r : Except PyErr Unit) (s : SPState) :
    ((finallyStep flp r s).2).writeFails = s.writeFails := by
  unfold finallyStep
  repeat' split
  all_goals rfl

@[simp] theorem finallyStep_mappingResult (flp : String) (r : Except PyErr Unit) (s : SPState) :
    ((finallyStep flp r s).2).mappingResult = s.mappingResult := by
  unfold finallyStep
  repeat' split
  all_goals rfl

@[simp] theorem finallyStep_log (flp : String) (r : Except PyErr Unit) (s : SPState) :
    ((finallyStep flp r s).2).log = s.log := by
  unfold finallyStep
  repeat' split
  all_goals rfl

theorem tryBody_state_cases (flp ws t : String) (s : SPState) :
    (tryBody flp ws t s).2 = s ∨ (tryBody flp ws t s).1 = Except.ok () := by
  unfold tryBody
  repeat' split
  all_goals simp

theorem tryBody_sheet_none (flp ws t : String) (s : SPState) (wb : Workbook)
    (h : List.lookup flp s.localFS = some wb)
    (h2 : List.lookup ws wb.sheets = none) :
    tryBody flp ws t s = (Except.error (PyErr.keyError ws), s) := by
  simp [tryBody, h, h2]

theorem tryBody_sheet_empty (flp ws t : String) (s : SPState) (wb : Workbook)
    (h : List.lookup flp s.localFS = some wb)
    (h2 : List.lookup ws wb.sheets = some []) :
    tryBody flp ws t s = (Except.error PyErr.stopIteration, s) := by
  simp [tryBody, h, h2]

theorem tryBody_write_fail (flp ws t : String) (s : SPState) (wb : Workbook)
    (hdr : Row) (body : List Row)
    (h : List.lookup flp s.localFS = some wb)
    (h2 : List.lookup ws wb.sheets = some (hdr :: body))
    (h3 : t ∈ s.writeFails) :
    tryBody flp ws t s = (Except.error (PyErr.writeError t), s) := by
  simp [tryBody, h, h2, h3]

theorem tryBody_ok (flp ws t : String) (s : SPState) (wb : Workbook)
    (hdr : Row) (body : List Row)
    (h : List.lookup flp s.localFS = some wb)
    (h2 : List.lookup ws wb.sheets = some (hdr :: body))
    (h3 : ¬ t ∈ s.writeFails) :
    tryBody flp ws t s =
      (Except.ok (),
       { s with
           tables := setA t ⟨hdr, body⟩ s.tables,
           log := s.log ++ [LogEntry.infoLoaded t] }) := by
  simp [tryBody, h, h2, h3]

theorem finallyStep_of_found (flp : String) (r : Except PyErr Unit) (s : SPState)
    (wb : Workbook) (h : List.lookup flp s.localFS = some wb) :
    finallyStep flp r s =
      if flp ∈ s.removeFails then (Except.error (PyErr.osError flp), s)
      else (liftResult r, { s with localFS := removeA flp s.localFS }) := by
  unfold finallyStep
  rw [h]

theorem load_of_stage_none (p ws t : String) (s : SPState)
    (h : List.lookup p s.stage = none) :
    load_excel_worksheet_to_table_local p ws t s =
      (Except.error (PyErr.stagingError p), attemptLog p s) := by
  simp only [load_excel_worksheet_to_table_local, attemptLog_stage, h]

theorem load_of_stage_found (p ws t : String) (s : SPState) (wb : Workbook)
    (h : List.lookup p s.stage = some wb) :
    load_excel_worksheet_to_table_local p ws t s =
      finallyStep (full_local_path p)
        (tryBody (full_local_path p) ws t (stageGet p wb (attemptLog p s))).1
        (exceptStep (basename p)
          (tryBody (full_local_path p) ws t (stageGet p wb (attemptLog p s))).1
          (tryBody (full_local_path p) ws t (stageGet p wb (attemptLog p s))).2) := by
  simp only [load_excel_worksheet_to_table_local, attemptLog_stage, h]

theorem load_ok_eq (p ws t : String) (s : SPState) (wb : Workbook)
    (hdr : Row) (body : List Row)
    (h1 : List.lookup p s.stage = some wb)
    (h2 : List.lookup ws wb.sheets = some (hdr :: body))
    (h3 : ¬ t ∈ s.writeFails)
    (h4 : ¬ full_local_path p ∈ s.removeFails) :
    load_excel_worksheet_to_table_local p ws t s =
      (Except.ok true,
       { s with
           localFS := removeA (full_local_path p) (setA (full_local_path p) wb s.localFS),
           tables := setA t ⟨hdr, body⟩ s.tables,
           log := s.log ++ [LogEntry.infoAttemptGet p, LogEntry.infoLoaded t] }) := by
  rw [load_of_stage_found p ws t s wb h1]
  rw [tryBody_ok (full_local_path p) ws t (stageGet p wb (attemptLog p s)) wb hdr body
      (by simp [lookup_setA]) h2 h3]
  simp [exceptStep, finallyStep, liftResult, lookup_setA, h4, stageGet, attemptLog]

theorem load_err_clean (p ws t : String) (s : SPState) (wb : Workbook) (e : PyErr)
    (h1 : List.lookup p s.stage = some wb)
    (he : (tryBody (full_local_path p) ws t (stageGet p wb (attemptLog p s))).1 =
      Except.error e)
    (h4 : ¬ full_local_path p ∈ s.removeFails) :
    load_excel_worksheet_to_table_local p ws t s =
      (Except.error e,
       { s with
           localFS := removeA (full_local_path p) (setA (full_local_path p) wb s.localFS),
           log := s.log ++ [LogEntry.infoAttemptGet p,
                            LogEntry.errorProcessing (basename p)] }) := by
  rcases tryBody_state_cases (full_local_path p) ws t (stageGet p wb (attemptLog p s)) with
    hst | hok
  · rw [load_of_stage_found p ws t s wb h1, he, hst]
    simp [exceptStep, finallyStep, liftResult, lookup_setA, h4, stageGet, attemptLog]
  · rw [he] at hok
    exact Except.noConfusion hok

theorem load_err_removeFail (p ws t : String) (s : SPState) (wb : Workbook)
    (h1 : List.lookup p s.stage = some wb)
    (h4 : full_local_path p ∈ s.removeFails) :
    (load_excel_worksheet_to_table_local p ws t s).1 =
      Except.error (PyErr.osError (full_local_path p)) := by
  rw [load_of_stage_found p ws t s wb h1]
  have hfl : List.lookup (full_local_path p)
      (exceptStep (basename p)
        (tryBody (full_local_path p) ws t (stageGet p wb (attemptLog p s))).1
        (tryBody (full_local_path p) ws t (stageGet p wb (attemptLog p s))).2).localFS =
      some wb := by
    rw [exceptStep_localFS, tryBody_localFS]
    simp [lookup_setA]
  rw [finallyStep_of_found _ _ _ wb hfl]
  rw [if_pos (by simpa using h4)]

theorem load_stage_inv (p ws t : String) (s : SPState) :
    ((load_excel_worksheet_to_table_local p ws t s).2).stage = s.stage := by
  cases h : List.lookup p s.stage with
  | none => rw [load_of_stage_none p ws t s h]; rfl
  | some wb => rw [load_of_stage_found p ws t s wb h]; simp

theorem load_removeFails_inv (p ws t : String) (s : SPState) :
    ((load_excel_worksheet_to_table_local p ws t s).2).removeFails = s.removeFails := by
  cases h : List.lookup p s.stage with
  | none => rw [load_of_stage_none p ws t s h]; rfl
  | some wb => rw [load_of_stage_found p ws t s wb h]; simp

theorem load_writeFails_inv (p ws t : String) (s : SPState) :
    ((load_excel_worksheet_to_table_local p ws t s).2).writeFails = s.writeFails := by
  cases h : List.lookup p s.stage with
  | none => rw [load_of_stage_none p ws t s h]; rfl
  | some wb => rw [load_of_stage_found p ws t s wb h]; simp

theorem load_mappingResult_inv (p ws t : String) (s : SPState) :
    ((load_excel_worksheet_to_table_local p ws t s).2).mappingResult = s.mappingResult := by
  cases h : List.lookup p s.stage with
  | none => rw [load_of_stage_none p ws t s h]; rfl
  | some wb => rw [load_of_stage_found p ws t s wb h]; simp

theorem validB_spec (s : SPState) (p ws t : String) (h : validB s p ws t = true) :
    ∃ wb hdr body,
      List.lookup p s.stage = some wb ∧
      List.lookup ws wb.sheets = some (hdr :: body) ∧
      ¬ t ∈ s.writeFails ∧
      ¬ full_local_path p ∈ s.removeFails := by
  unfold validB at h
  split at h
  · exact absurd h (by simp)
  · next wb hst =>
    split at h
    · next hsh => exact absurd h (by simp)
    · next hsh => exact absurd h (by simp)
    · next hdr body hsh =>
      simp only [Bool.and_eq_true, Bool.not_eq_true', decide_eq_false_iff_not] at h
      exact ⟨wb, hdr, body, hst, hsh, h.1, h.2⟩

theorem load_not_valid_err (p ws t : String) (s : SPState)
    (h : ¬ validB s p ws t = true) :
    ∃ e, (load_excel_worksheet_to_table_local p ws t s).1 = Except.error e := by
  unfold validB at h
  cases hst : List.lookup p s.stage with
  | none =>
    exact ⟨PyErr.stagingError p, by rw [load_of_stage_none p ws t s hst]⟩
  | some wb =>
    simp only [hst] at h
    by_cases h4 : full_local_path p ∈ s.removeFails
    · exact ⟨PyErr.osError (full_local_path p), load_err_removeFail p ws t s wb hst h4⟩
    · cases hsh : List.lookup ws wb.sheets with
      | none =>
        refine ⟨PyErr.keyError ws, ?_⟩
        have he := tryBody_sheet_none (full_local_path p) ws t
          (stageGet p wb (attemptLog p s)) wb (by simp [lookup_setA]) hsh
        rw [load_err_clean p ws t s wb _ hst (by rw [he]) h4]
      | some rows =>
        simp only [hsh] at h
        cases rows with
        | nil =>
          refine ⟨PyErr.stopIteration, ?_⟩
          have he := tryBody_sheet_empty (full_local_path p) ws t
            (stageGet p wb (attemptLog p s)) wb (by simp [lookup_setA]) hsh
          rw [load_err_clean p ws t s wb _ hst (by rw [he]) h4]
        | cons hdr body =>
          have h3 : t ∈ s.writeFails := by
            by_contra h3
            exact h (by simp [h3, h4])
          refine ⟨PyErr.writeError t, ?_⟩
          have he := tryBody_write_fail (full_local_path p) ws t
            (stageGet p wb (attemptLog p s)) wb hdr body (by simp [lookup_setA]) hsh h3
          rw [load_err_clean p ws t s wb _ hst (by rw [he]) h4]

theorem load_ok_validB (p ws t : String) (s : SPState) (b : Bool)
    (h : (load_excel_worksheet_to_table_local p ws t s).1 = Except.ok b) :
    validB s p ws t = true := by
  by_cases hv : validB s p ws t = true
  · exact hv
  · obtain ⟨e, he⟩ := load_not_valid_err p ws t s hv
    rw [he] at h
    exact Except.noConfusion h

/-- C1: for every successful per-file load on a workbook containing a sheet
named exactly `worksheet_name`, the destination table afterwards holds
exactly the worksheet's rows after the first, in order, with column names
equal to the first row, and its prior contents and schema are discarded
(the stored DataFrame is determined by the worksheet alone). -/
theorem c1_load_overwrites_table (p ws t : String) (s : SPState) (wb : Workbook)
    (hdr : Row) (body : List Row)
    (h1 : List.lookup p s.stage = some wb)
    (h2 : List.lookup ws wb.sheets = some (hdr :: body))
    (h3 : ¬ t ∈ s.writeFails)
    (h4 : ¬ full_local_path p ∈ s.removeFails) :
    (load_excel_worksheet_to_table_local p ws t s).1 = Except.ok true ∧
    List.lookup t ((load_excel_worksheet_to_table_local p ws t s).2).tables =
      some ⟨hdr, body⟩ := by
  rw [load_ok_eq p ws t s wb hdr body h1 h2 h3 h4]
  exact ⟨rfl, by simp [lookup_setA]⟩

theorem c1_witness :
    (load_excel_worksheet_to_table_local "@ST/intro/a.xlsx" "ws" "T" wC1).1 =
      Except.ok true ∧
    List.lookup "T"
        ((load_excel_worksheet_to_table_local "@ST/intro/a.xlsx" "ws" "T" wC1).2).tables =
      some ⟨["ID", "NAME"], [["1", "Alice"], ["2", "Bob"]]⟩ :=
  c1_load_overwrites_table "@ST/intro/a.xlsx" "ws" "T" wC1
    ⟨[("ws", [["ID", "NAME"], ["1", "Alice"], ["2", "Bob"]])]⟩
    ["ID", "NAME"] [["1", "Alice"], ["2", "Bob"]]
    (by decide) (by decide) (by decide) (by decide)

/-- C2 counterexample: an invocation that raises at step 1 (the stage fetch,
which sits outside the try/finally) performs no cleanup, so a pre-existing
transient local file still exists after the invocation — refuting "after
every invocation ... the transient local file does not exist; cleanup is
unconditional on every exit path". -/
theorem c2_counterexample :
    (load_excel_worksheet_to_table_local "@ST/intro/b.xlsx" "ws" "TB" xC2).1 =
      Except.error (PyErr.stagingError "@ST/intro/b.xlsx") ∧
    List.lookup "/tmp/b.xlsx"
        ((load_excel_worksheet_to_table_local "@ST/intro/b.xlsx" "ws" "TB" xC2).2).localFS ≠
      none := by decide

/-- C2 amended: whenever the stage fetch (step 1) succeeds and the deletion
itself is not rejected, the transient local file does not exist after the
invocation, whether the operation returns or raises at steps 2-4; a step-1
failure exits without running cleanup. -/
theorem c2_cleanup_after_fetch (p ws t : String) (s : SPState) (wb : Workbook)
    (h1 : List.lookup p s.stage = some wb)
    (h4 : ¬ full_local_path p ∈ s.removeFails) :
    List.lookup (full_local_path p)
      ((load_excel_worksheet_to_table_local p ws t s).2).localFS = none := by
  rw [load_of_stage_found p ws t s wb h1]
  have hfl : List.lookup (full_local_path p)
      (exceptStep (basename p)
        (tryBody (full_local_path p) ws t (stageGet p wb (attemptLog p s))).1
        (tryBody (full_local_path p) ws t (stageGet p wb (attemptLog p s))).2).localFS =
      some wb := by
    rw [exceptStep_localFS, tryBody_localFS]
    simp [lookup_setA]
  rw [finallyStep_of_found _ _ _ wb hfl]
  rw [if_neg (by simpa using h4)]
  simp [lookup_removeA_self]

theorem c2_witness :
    List.lookup (full_local_path "@ST/intro/b.xlsx")
      ((load_excel_worksheet_to_table_local "@ST/intro/b.xlsx" "ws" "TB" wC2).2).localFS =
      none :=
  c2_cleanup_after_fetch "@ST/intro/b.xlsx" "ws" "TB" wC2
    ⟨[("other", [["H"]])]⟩ (by decide) (by decide)

/-- C4: when the fetched workbook has no sheet named exactly
`worksheet_name`, the operation raises (a KeyError, or the cleanup OSError
when the delete is also rejected) and no write occurs: every destination
table keeps its prior contents. -/
theorem c4_missing_worksheet (p ws t : String) (s : SPState) (wb : Workbook)
    (h1 : List.lookup p s.stage = some wb)
    (h2 : List.lookup ws wb.sheets = none) :
    ((load_excel_worksheet_to_table_local p ws t s).1 =
        Except.error (PyErr.keyError ws) ∨
     (load_excel_worksheet_to_table_local p ws t s).1 =
        Except.error (PyErr.osError (full_local_path p))) ∧
    ((load_excel_worksheet_to_table_local p ws t s).2).tables = s.tables := by
  have he := tryBody_sheet_none (full_local_path p) ws t
    (stageGet p wb (attemptLog p s)) wb (by simp [lookup_setA]) h2
  by_cases h4 : full_local_path p ∈ s.removeFails
  · constructor
    · right; exact load_err_removeFail p ws t s wb h1 h4
    · rw [load_of_stage_found p ws t s wb h1, he]
      simp
  · rw [load_err_clean p ws t s wb _ h1 (by rw [he]) h4]
    exact ⟨Or.inl rfl, rfl⟩

theorem c4_witness :
    ((load_excel_worksheet_to_table_local "@ST/intro/d.xlsx" "ws" "TD" wC4).1 =
        Except.error (PyErr.keyError "ws") ∨
     (load_excel_worksheet_to_table_local "@ST/intro/d.xlsx" "ws" "TD" wC4).1 =
        Except.error (PyErr.osError (full_local_path "@ST/intro/d.xlsx"))) ∧
    ((load_excel_worksheet_to_table_local "@ST/intro/d.xlsx" "ws" "TD" wC4).2).tables =
      wC4.tables :=
  c4_missing_worksheet "@ST/intro/d.xlsx" "ws" "TD" wC4
    ⟨[("other", [["H"]])]⟩ (by decide) (by decide)

/-- C7 counterexample: an exception in step 1 (the stage fetch) is neither
logged with the file name nor followed by cleanup — the fetch sits outside
the try/except/finally — refuting "for every exception raised during any of
steps 1-4 (including the stage fetch of step 1), the exception is logged
with the offending file's name". -/
theorem c7_counterexample :
    (load_excel_worksheet_to_table_local "@ST/intro/c.xlsx" "ws" "TC" xC7).1 =
      Except.error (PyErr.stagingError "@ST/intro/c.xlsx") ∧
    ((load_excel_worksheet_to_table_local "@ST/intro/c.xlsx" "ws" "TC" xC7).2).log =
      [LogEntry.infoAttemptGet "@ST/intro/c.xlsx"] ∧
    ¬ LogEntry.errorProcessing "c.xlsx" ∈
      ((load_excel_worksheet_to_table_local "@ST/intro/c.xlsx" "ws" "TC" xC7).2).log := by
  decide

/-- C7 amended: every exception raised inside the try block (steps 2-4) is
logged with the offending file's name and re-raised after cleanup (provided
the cleanup deletion itself succeeds); a step-1 stage-fetch exception
propagates without being logged as an error and without cleanup. -/
theorem c7_try_error_logged (p ws t : String) (s : SPState) (wb : Workbook) (e : PyErr)
    (h1 : List.lookup p s.stage = some wb)
    (he : (tryBody (full_local_path p) ws t (stageGet p wb (attemptLog p s))).1 =
      Except.error e)
    (h4 : ¬ full_local_path p ∈ s.removeFails) :
    (load_excel_worksheet_to_table_local p ws t s).1 = Except.error e ∧
    LogEntry.errorProcessing (basename p) ∈
      ((load_excel_worksheet_to_table_local p ws t s).2).log := by
  rw [load_err_clean p ws t s wb e h1 he h4]
  refine ⟨rfl, ?_⟩
  simp

theorem c7_witness :
    (load_excel_worksheet_to_table_local "@ST/intro/e.xlsx" "ws" "TE" wC7).1 =
      Except.error (PyErr.keyError "ws") ∧
    LogEntry.errorProcessing (basename "@ST/intro/e.xlsx") ∈
      ((load_excel_worksheet_to_table_local "@ST/intro/e.xlsx" "ws" "TE" wC7).2).log :=
  c7_try_error_logged "@ST/intro/e.xlsx" "ws" "TE" wC7
    ⟨[("other", [["H"]])]⟩ (PyErr.keyError "ws") (by decide) (by decide) (by decide)

/-- C8 counterexample: when a step-2-4 error E (here a KeyError) is in
flight and the cleanup deletion in the `finally` block also fails, the
error that reaches the caller is the cleanup OSError, not E — Python's
`finally` replaces the in-flight exception — refuting "the error that
reaches the caller is E". -/
theorem c8_counterexample :
    (tryBody (full_local_path "@ST/intro/f.xlsx") "ws" "TF"
        (stageGet "@ST/intro/f.xlsx" ⟨[("other", [["H"]])]⟩
          (attemptLog "@ST/intro/f.xlsx" xC8))).1 =
      Except.error (PyErr.keyError "ws") ∧
    (load_excel_worksheet_to_table_local "@ST/intro/f.xlsx" "ws" "TF" xC8).1 =
      Except.error (PyErr.osError "/tmp/f.xlsx") ∧
    (load_excel_worksheet_to_table_local "@ST/intro/f.xlsx" "ws" "TF" xC8).1 ≠
      Except.error (PyErr.keyError "ws") := by
  decide

/-- C8 amended: whenever the stage fetch succeeds and the cleanup deletion
fails, the OSError from the deletion is what reaches the caller — it masks
any earlier step-2-4 error, and it surfaces equally when no earlier error
occurred. -/
theorem c8_cleanup_error_reaches_caller (p ws t : String) (s : SPState) (wb : Workbook)
    (h1 : List.lookup p s.stage = some wb)
    (h4 : full_local_path p ∈ s.removeFails) :
    (load_excel_worksheet_to_table_local p ws t s).1 =
      Except.error (PyErr.osError (full_local_path p)) :=
  load_err_removeFail p ws t s wb h1 h4

theorem c8_witness :
    (load_excel_worksheet_to_table_local "@ST/intro/g.xlsx" "ws" "TG" wC8).1 =
      Except.error (PyErr.osError (full_local_path "@ST/intro/g.xlsx")) :=
  c8_cleanup_error_reaches_caller "@ST/intro/g.xlsx" "ws" "TG" wC8
    ⟨[("ws", [["ID"], ["1"]])]⟩ (by decide) (by decide)

/-- C10: loading a worksheet that yields zero rows raises StopIteration
(from consuming the header of the empty row sequence) before any table is
constructed or written — all destination tables are unchanged — and the
staged local file is still deleted. -/
theorem c10_empty_worksheet (p ws t : String) (s : SPState) (wb : Workbook)
    (h1 : List.lookup p s.stage = some wb)
    (h2 : List.lookup ws wb.sheets = some [])
    (h4 : ¬ full_local_path p ∈ s.removeFails) :
    (load_excel_worksheet_to_table_local p ws t s).1 =
      Except.error PyErr.stopIteration ∧
    ((load_excel_worksheet_to_table_local p ws t s).2).tables = s.tables ∧
    List.lookup (full_local_path p)
      ((load_excel_worksheet_to_table_local p ws t s).2).localFS = none := by
  have he := tryBody_sheet_empty (full_local_path p) ws t
    (stageGet p wb (attemptLog p s)) wb (by simp [lookup_setA]) h2
  rw [load_err_clean p ws t s wb _ h1 (by rw [he]) h4]
  refine ⟨rfl, rfl, ?_⟩
  simp [lookup_removeA_self]

theorem c10_witness :
    (load_excel_worksheet_to_table_local "@ST/intro/h.xlsx" "ws" "TH" wC10).1 =
      Except.error PyErr.stopIteration ∧
    ((load_excel_worksheet_to_table_local "@ST/intro/h.xlsx" "ws" "TH" wC10).2).tables =
      wC10.tables ∧
    List.lookup (full_local_path "@ST/intro/h.xlsx")
      ((load_excel_worksheet_to_table_local "@ST/intro/h.xlsx" "ws" "TH" wC10).2).localFS =
      none :=
  c10_empty_worksheet "@ST/intro/h.xlsx" "ws" "TH" wC10
    ⟨[("ws", [])]⟩ (by decide) (by decide) (by decide)

theorem validB_env (s u : SPState) (p ws t : String)
    (h1 : u.stage = s.stage) (h2 : u.writeFails = s.writeFails)
    (h3 : u.removeFails = s.removeFails) :
    validB u p ws t = validB s p ws t := by
  unfold validB
  rw [h1, h2, h3]

theorem runLoop_stage_inv (records : List MappingRecord) (s : SPState) :
    ((runLoop records s).2).stage = s.stage := by
  induction records generalizing s with
  | nil => rfl
  | cons q rest ih =>
    simp only [runLoop]
    rcases hld : load_excel_worksheet_to_table_local
      q.stage_file_path q.worksheet_name q.target_table s with ⟨res, s'⟩
    have hs' : s'.stage = s.stage := by
      have h := load_stage_inv q.stage_file_path q.worksheet_name q.target_table s
      rw [hld] at h
      exact h
    cases res with
    | ok b => rw [ih s', hs']
    | error e => exact hs'

theorem runLoop_writeFails_inv (records : List MappingRecord) (s : SPState) :
    ((runLoop records s).2).writeFails = s.writeFails := by
  induction records generalizing s with
  | nil => rfl
  | cons q rest ih =>
    simp only [runLoop]
    rcases hld : load_excel_worksheet_to_table_local
      q.stage_file_path q.worksheet_name q.target_table s with ⟨res, s'⟩
    have hs' : s'.writeFails = s.writeFails := by
      have h := load_writeFails_inv q.stage_file_path q.worksheet_name q.target_table s
      rw [hld] at h
      exact h
    cases res with
    | ok b => rw [ih s', hs']
    | error e => exact hs'

theorem runLoop_removeFails_inv (records : List MappingRecord) (s : SPState) :
    ((runLoop records s).2).removeFails = s.removeFails := by
  induction records generalizing s with
  | nil => rfl
  | cons q rest ih =>
    simp only [runLoop]
    rcases hld : load_excel_worksheet_to_table_local
      q.stage_file_path q.worksheet_name q.target_table s with ⟨res, s'⟩
    have hs' : s'.removeFails = s.removeFails := by
      have h := load_removeFails_inv q.stage_file_path q.worksheet_name q.target_table s
      rw [hld] at h
      exact h
    cases res with
    | ok b => rw [ih s', hs']
    | error e => exact hs'

theorem runLoop_mappingResult_inv (records : List MappingRecord) (s : SPState) :
    ((runLoop records s).2).mappingResult = s.mappingResult := by
  induction records generalizing s with
  | nil => rfl
  | cons q rest ih =>
    simp only [runLoop]
    rcases hld : load_excel_worksheet_to_table_local
      q.stage_file_path q.worksheet_name q.target_table s with ⟨res, s'⟩
    have hs' : s'.mappingResult = s.mappingResult := by
      have h := load_mappingResult_inv q.stage_file_path q.worksheet_name q.target_table s
      rw [hld] at h
      exact h
    cases res with
    | ok b => rw [ih s', hs']
    | error e => exact hs'

theorem runLoop_ok_eq (records : List MappingRecord) (s : SPState)
    (hv : ∀ r ∈ records,
      validB s r.stage_file_path r.worksheet_name r.target_table = true) :
    (runLoop records s).1 = Except.ok () ∧
    ((runLoop records s).2).log = s.log ++ records.flatMap recTrace ∧
    ((runLoop records s).2).tables =
      applySets (records.map (recSet s.stage)) s.tables := by
  induction records generalizing s with
  | nil => simp [runLoop, applySets]
  | cons r rest ih =>
    obtain ⟨wb, hdr, body, hst, hsh, h3, h4⟩ :=
      validB_spec s r.stage_file_path r.worksheet_name r.target_table
        (hv r (List.mem_cons_self r rest))
    have hload := load_ok_eq r.stage_file_path r.worksheet_name r.target_table s
      wb hdr body hst hsh h3 h4
    simp only [runLoop, hload]
    have hv' : ∀ q ∈ rest,
        validB { s with
            localFS := removeA (full_local_path r.stage_file_path)
              (setA (full_local_path r.stage_file_path) wb s.localFS),
            tables := setA r.target_table ⟨hdr, body⟩ s.tables,
            log := s.log ++ [LogEntry.infoAttemptGet r.stage_file_path,
                             LogEntry.infoLoaded r.target_table] }
          q.stage_file_path q.worksheet_name q.target_table = true := by
      intro q hq
      have henv := validB_env s
        { s with
            localFS := removeA (full_local_path r.stage_file_path)
              (setA (full_local_path r.stage_file_path) wb s.localFS),
            tables := setA r.target_table ⟨hdr, body⟩ s.tables,
            log := s.log ++ [LogEntry.infoAttemptGet r.stage_file_path,
                             LogEntry.infoLoaded r.target_table] }
        q.stage_file_path q.worksheet_name q.target_table rfl rfl rfl
      rw [henv]
      exact hv q (List.mem_cons_of_mem r hq)
    obtain ⟨g1, g6, g7⟩ := ih _ hv'
    refine ⟨g1, ?_, ?_⟩
    · rw [g6]
      simp [recTrace]
    · rw [g7]
      simp only [List.map_cons, applySets, recSet, dfRecord, hst, hsh]

theorem runLoop_ok_valid (records : List MappingRecord) (s : SPState)
    (h : (runLoop records s).1 = Except.ok ()) :
    ∀ r ∈ records,
      validB s r.stage_file_path r.worksheet_name r.target_table = true := by
  induction records generalizing s with
  | nil => intro r hr; cases hr
  | cons q rest ih =>
    intro r hr
    rcases hld : load_excel_worksheet_to_table_local
      q.stage_file_path q.worksheet_name q.target_table s with ⟨res, s'⟩
    simp only [runLoop, hld] at h
    cases res with
    | error e => exact Except.noConfusion h
    | ok b =>
      have hq : validB s q.stage_file_path q.worksheet_name q.target_table = true :=
        load_ok_validB q.stage_file_path q.worksheet_name q.target_table s b
          (by rw [hld])
      rcases List.mem_cons.mp hr with hr | hr
      · rw [hr]; exact hq
      · have henv1 : s'.stage = s.stage := by
          have hh := load_stage_inv q.stage_file_path q.worksheet_name q.target_table s
          rw [hld] at hh; exact hh
        have henv2 : s'.writeFails = s.writeFails := by
          have hh := load_writeFails_inv q.stage_file_path q.worksheet_name q.target_table s
          rw [hld] at hh; exact hh
        have henv3 : s'.removeFails = s.removeFails := by
          have hh := load_removeFails_inv q.stage_file_path q.worksheet_name q.target_table s
          rw [hld] at hh; exact hh
        have := ih s' h r hr
        rw [validB_env s s' r.stage_file_path r.worksheet_name r.target_table
          henv1 henv2 henv3] at this
        exact this

theorem runLoop_append (a b : List MappingRecord) (s : SPState) :
    runLoop (a ++ b) s =
      match runLoop a s with
      | (Except.ok _, s') => runLoop b s'
      | (Except.error e, s') => (Except.error e, s') := by
  induction a generalizing s with
  | nil => simp [runLoop]
  | cons q rest ih =>
    simp only [List.cons_append, runLoop]
    rcases hld : load_excel_worksheet_to_table_local
      q.stage_file_path q.worksheet_name q.target_table s with ⟨res, s'⟩
    cases res with
    | ok b' => exact ih s'
    | error e => rfl

theorem recTrace_write_count (records : List MappingRecord) :
    ((records.flatMap recTrace).filter isLoadWrite).length = records.length := by
  induction records with
  | nil => rfl
  | cons r rest ih =>
    simp only [List.flatMap_cons, List.filter_append, List.length_append, recTrace]
    rw [ih]
    simp [isLoadWrite, Nat.add_comm]

/-- C3: when the mapping query returns N loadable records, `main` invokes
the per-file load once per record in resolver-returned order (one
attempt-GET entry then one loaded-table entry per record, in sequence in
the log), performs exactly N destination-table writes, and returns the
plain success status string. -/
theorem c3_run_processes_all (s : SPState) (records : List MappingRecord)
    (hm : s.mappingResult = Except.ok records)
    (hv : ∀ r ∈ records,
      validB s r.stage_file_path r.worksheet_name r.target_table = true) :
    (Proc.main s).1 = Except.ok successMessage ∧
    ((Proc.main s).2).log =
      s.log ++ [LogEntry.infoFound records.length] ++ records.flatMap recTrace ++
        [LogEntry.infoEnd] ∧
    (((Proc.main s).2).log.filter isLoadWrite).length =
      (s.log.filter isLoadWrite).length + records.length := by
  obtain ⟨st, fs, tb, mr, rf, wf, lg⟩ := s
  dsimp only at hm hv ⊢
  subst hm
  have hv1 : ∀ r ∈ records,
      validB (SPState.mk st fs tb (Except.ok records) rf wf
          (lg ++ [LogEntry.infoFound records.length]))
        r.stage_file_path r.worksheet_name r.target_table = true := by
    intro r hr
    have henv := validB_env (SPState.mk st fs tb (Except.ok records) rf wf lg)
      (SPState.mk st fs tb (Except.ok records) rf wf
        (lg ++ [LogEntry.infoFound records.length]))
      r.stage_file_path r.worksheet_name r.target_table rfl rfl rfl
    rw [henv]
    exact hv r hr
  obtain ⟨g1, g6, g7⟩ := runLoop_ok_eq records
    (SPState.mk st fs tb (Except.ok records) rf wf
      (lg ++ [LogEntry.infoFound records.length])) hv1
  have hpair : runLoop records
      (SPState.mk st fs tb (Except.ok records) rf wf
        (lg ++ [LogEntry.infoFound records.length])) =
      (Except.ok (),
       (runLoop records
         (SPState.mk st fs tb (Except.ok records) rf wf
           (lg ++ [LogEntry.infoFound records.length]))).2) := by
    rw [← g1]
  simp only [Proc.main]
  rw [hpair]
  refine ⟨rfl, ?_, ?_⟩
  · show ((runLoop records
        (SPState.mk st fs tb (Except.ok records) rf wf
          (lg ++ [LogEntry.infoFound records.length]))).2).log ++ [LogEntry.infoEnd] = _
    rw [g6]
  · show (List.filter isLoadWrite
        (((runLoop records
          (SPState.mk st fs tb (Except.ok records) rf wf
            (lg ++ [LogEntry.infoFound records.length]))).2).log ++
          [LogEntry.infoEnd])).length = _
    rw [g6]
    simp [List.filter_append, recTrace_write_count, isLoadWrite, List.filter_cons]

theorem c3_witness :
    (Proc.main wC3).1 = Except.ok successMessage :=
  (c3_run_processes_all wC3
    [⟨"@ST/intro/i.xlsx", "ws", "T1"⟩, ⟨"@ST/intro/j.xlsx", "ws", "T2"⟩]
    (by decide) (by decide)).1

/-- C5: if the per-file load of some record raises, no later record is
attempted — the run's final state is exactly the state at the failing
load — and `main` propagates that error instead of returning the success
string. -/
theorem c5_failure_aborts_rest (s sk sk' : SPState) (pre post : List MappingRecord)
    (r : MappingRecord) (e : PyErr)
    (hm : s.mappingResult = Except.ok (pre ++ r :: post))
    (hpre : runLoop pre
      { s with log := s.log ++ [LogEntry.infoFound (pre ++ r :: post).length] } =
      (Except.ok (), sk))
    (hfail : load_excel_worksheet_to_table_local
      r.stage_file_path r.worksheet_name r.target_table sk = (Except.error e, sk')) :
    Proc.main s = (Except.error e, sk') := by
  obtain ⟨st, fs, tb, mr, rf, wf, lg⟩ := s
  dsimp only at hm hpre ⊢
  subst hm
  simp only [Proc.main, runLoop_append, hpre, runLoop, hfail]

theorem c5_witness :
    Proc.main wC5 =
      (Except.error (PyErr.writeError "T1"),
       (load_excel_worksheet_to_table_local "@ST/intro/i.xlsx" "ws" "T1"
         { wC5 with log := wC5.log ++ [LogEntry.infoFound 2] }).2) :=
  c5_failure_aborts_rest wC5
    { wC5 with log := wC5.log ++ [LogEntry.infoFound 2] }
    (load_excel_worksheet_to_table_local "@ST/intro/i.xlsx" "ws" "T1"
      { wC5 with log := wC5.log ++ [LogEntry.infoFound 2] }).2
    [] [⟨"@ST/intro/j.xlsx", "ws", "T2"⟩]
    ⟨"@ST/intro/i.xlsx", "ws", "T1"⟩ (PyErr.writeError "T1")
    (by decide) (by decide) (by decide)

/-- C6: if the mapping query fails, `main` propagates that error and the
state is completely unchanged — no staging, parsing, writing, or logging
occurs for any record. -/
theorem c6_query_failure_no_side_effects (s : SPState) (e : PyErr)
    (hm : s.mappingResult = Except.error e) :
    Proc.main s = (Except.error e, s) := by
  simp only [Proc.main, hm]

theorem c6_witness :
    Proc.main wC6 = (Except.error (PyErr.queryError "boom"), wC6) :=
  c6_query_failure_no_side_effects wC6 (PyErr.queryError "boom") (by decide)

/-- C9: overwrite idempotence — if a full run succeeds, running `main`
again from the resulting state succeeds with the same status string and
leaves every destination table with the same contents as after the first
run. -/
theorem c9_overwrite_idempotent (s s₁ : SPState) (msg : String)
    (h : Proc.main s = (Except.ok msg, s₁)) :
    (Proc.main s₁).1 = Except.ok msg ∧
    ∀ tbl, List.lookup tbl ((Proc.main s₁).2).tables = List.lookup tbl s₁.tables := by
  obtain ⟨st, fs, tb, mr, rf, wf, lg⟩ := s
  cases mr with
  | error e =>
    simp only [Proc.main] at h
    simp at h
  | ok records =>
    rcases hrl : runLoop records
      (SPState.mk st fs tb (Except.ok records) rf wf
        (lg ++ [LogEntry.infoFound records.length])) with ⟨res, s2⟩
    cases res with
    | error e =>
      simp only [Proc.main, hrl] at h
      simp at h
    | ok u =>
      simp only [Proc.main, hrl] at h
      have hmsg : successMessage = msg := by
        have h1 := congrArg Prod.fst h
        simpa using h1
      have hs₁ : s₁ = { s2 with log := s2.log ++ [LogEntry.infoEnd] } := by
        have h2 := congrArg Prod.snd h
        exact h2.symm
      subst hs₁
      have e_stage : s2.stage = st := by
        have hh := runLoop_stage_inv records
          (SPState.mk st fs tb (Except.ok records) rf wf
            (lg ++ [LogEntry.infoFound records.length]))
        rw [hrl] at hh; exact hh
      have e_wf : s2.writeFails = wf := by
        have hh := runLoop_writeFails_inv records
          (SPState.mk st fs tb (Except.ok records) rf wf
            (lg ++ [LogEntry.infoFound records.length]))
        rw [hrl] at hh; exact hh
      have e_rf : s2.removeFails = rf := by
        have hh := runLoop_removeFails_inv records
          (SPState.mk st fs tb (Except.ok records) rf wf
            (lg ++ [LogEntry.infoFound records.length]))
        rw [hrl] at hh; exact hh
      have e_mr : s2.mappingResult = Except.ok records := by
        have hh := runLoop_mappingResult_inv records
          (SPState.mk st fs tb (Except.ok records) rf wf
            (lg ++ [LogEntry.infoFound records.length]))
        rw [hrl] at hh; exact hh
      have hval : ∀ r ∈ records,
          validB (SPState.mk st fs tb (Except.ok records) rf wf
            (lg ++ [LogEntry.infoFound records.length]))
            r.stage_file_path r.worksheet_name r.target_table = true :=
        runLoop_ok_valid records _ (by rw [hrl])
      obtain ⟨-, -, g7a⟩ := runLoop_ok_eq records
        (SPState.mk st fs tb (Except.ok records) rf wf
          (lg ++ [LogEntry.infoFound records.length])) hval
      rw [hrl] at g7a
      have g7a' : s2.tables = applySets (records.map (recSet st)) tb := g7a
      obtain ⟨st2, fs2, tb2, mr2, rf2, wf2, lg2⟩ := s2
      dsimp only at e_stage e_wf e_rf e_mr g7a' ⊢
      subst e_stage
      subst e_wf
      subst e_rf
      subst e_mr
      have hval₁ : ∀ r ∈ records,
          validB (SPState.mk st2 fs2 tb2 (Except.ok records) rf2 wf2
            ((lg2 ++ [LogEntry.infoEnd]) ++ [LogEntry.infoFound records.length]))
            r.stage_file_path r.worksheet_name r.target_table = true := by
        intro r hr
        have henv := validB_env
          (SPState.mk st2 fs tb (Except.ok records) rf2 wf2
            (lg ++ [LogEntry.infoFound records.length]))
          (SPState.mk st2 fs2 tb2 (Except.ok records) rf2 wf2
            ((lg2 ++ [LogEntry.infoEnd]) ++ [LogEntry.infoFound records.length]))
          r.stage_file_path r.worksheet_name r.target_table rfl rfl rfl
        rw [henv]
        exact hval r hr
      obtain ⟨g1b, -, g7b⟩ := runLoop_ok_eq records
        (SPState.mk st2 fs2 tb2 (Except.ok records) rf2 wf2
          ((lg2 ++ [LogEntry.infoEnd]) ++ [LogEntry.infoFound records.length])) hval₁
      have hpair : runLoop records
          (SPState.mk st2 fs2 tb2 (Except.ok records) rf2 wf2
            ((lg2 ++ [LogEntry.infoEnd]) ++ [LogEntry.infoFound records.length])) =
          (Except.ok (), (runLoop records
            (SPState.mk st2 fs2 tb2 (Except.ok records) rf2 wf2
              ((lg2 ++ [LogEntry.infoEnd]) ++
                [LogEntry.infoFound records.length]))).2) := by
        rw [← g1b]
      constructor
      · simp only [Proc.main]
        rw [hpair]
        show Except.ok successMessage = Except.ok msg
        rw [hmsg]
      · intro tbl
        simp only [Proc.main]
        rw [hpair]
        show List.lookup tbl ((runLoop records
          (SPState.mk st2 fs2 tb2 (Except.ok records) rf2 wf2
            ((lg2 ++ [LogEntry.infoEnd]) ++
              [LogEntry.infoFound records.length]))).2).tables =
          List.lookup tbl tb2
        have g7b' : ((runLoop records
            (SPState.mk st2 fs2 tb2 (Except.ok records) rf2 wf2
              ((lg2 ++ [LogEntry.infoEnd]) ++
                [LogEntry.infoFound records.length]))).2).tables =
            applySets (records.map (recSet st2)) tb2 := g7b
        rw [g7b', g7a']
        exact lookup_applySets_idem tbl (records.map (recSet st2)) tb

theorem c9_witness :
    (Proc.main ((Proc.main wC9).2)).1 = Except.ok successMessage :=
  (c9_overwrite_idempotent wC9 ((Proc.main wC9).2) successMessage (by decide)).1
